import Mathlib

/-!
# Verification of the atttech-tutor request-relay handlers

The repository consists of five serverless HTTP handler variants that relay a
user question to an external completion API:

* `src/api/chat.js` contains two handlers: a synchronous "Responses API"
  variant (here `chatV1…`) and an asynchronous "Assistants API" variant
  (here `chatV2…`).
* `src/unnamed/part_000`: an asynchronous Assistants-API variant
  (here `part000…`).
* `src/unnamed/part_001`: a synchronous Responses-API variant
  (here `part001…`).
* `src/unnamed/part_002`: a synchronous Responses-API variant
  (here `part002…`).

Each handler is embedded as a total function from the inbound request
(method, parsed JSON body), the environment configuration, and an oracle
describing the outcomes of the external HTTP calls, to the single HTTP
response the handler sends plus the number of external calls it issued.
Request payloads sent to the external service are not modelled (no claim
observes them); the observable behaviour is the response and the sequence
of external calls.  JavaScript exceptions are modelled by an `Except`-valued
core (`…Go`) wrapped by the exported handler, mirroring the `try`/`catch`
in every source file.  Thrown `Error` objects are represented by their
message string; `String(err)` on such an object prepends `"Error: "`.
-/

/-! ## JavaScript string primitives

Lean's built-in `String.trim`/`String.splitOn` do not evaluate inside the
kernel, so the JavaScript string operations used by the handlers are
modelled over the underlying character list.  JavaScript's `trim` removes
Unicode whitespace; the model uses `Char.isWhitespace` (space, tab, CR,
LF), which agrees on all inputs appearing in the claims. -/

/-- Model of JavaScript `String.prototype.trim`. -/
def jsTrim (s : String) : String :=
  ⟨((s.data.dropWhile Char.isWhitespace).reverse.dropWhile Char.isWhitespace).reverse⟩

/-- Helper for `jsSplitComma`: the accumulator holds the current field,
reversed. -/
def splitCommaAux : List Char → List Char → List String
  | [], acc => [⟨acc.reverse⟩]
  | c :: cs, acc =>
    if c = ',' then ⟨acc.reverse⟩ :: splitCommaAux cs []
    else splitCommaAux cs (c :: acc)

/-- Model of JavaScript `String.prototype.split(',')`.  On the empty string
it returns `[""]`, as in JavaScript. -/
def jsSplitComma (s : String) : List String := splitCommaAux s.data []

/-- Model of JavaScript `Array.prototype.join(sep)`. -/
def jsJoin (sep : String) : List String → String
  | [] => ""
  | [x] => x
  | x :: y :: xs => x ++ sep ++ jsJoin sep (y :: xs)

/-- Model of JavaScript `a || b` where `a` is a possibly-absent string:
the result is `b` when `a` is absent or empty (falsy), else `a`. -/
def jsOr (a : Option String) (b : String) : String :=
  match a with
  | some s => if s = "" then b else s
  | none => b

/-- `String(err)` applied to a thrown `Error` whose message is `e`. -/
def errToString (e : String) : String := "Error: " ++ e

/-! ## Inbound request and environment -/

/-- The parsed JSON request body, as far as the handlers inspect it:
`none` models a nullish `req.body` (absent/`null`/`undefined`);
`some q` models an object whose `question` field is `q` (`none` when the
field is absent).  The `question` field is modelled as an optional string;
this covers every input the claims quantify over. -/
abbrev ReqBody := Option (Option String)

/-- Environment variables read by the handlers.  `none` models an unset
variable; JavaScript truthiness makes an unset variable and the empty
string behave identically in every check below. -/
structure Env where
  OPENAI_API_KEY : Option String
  FILE_IDS : Option String
  VECTOR_STORE_IDS : Option String
  deriving Repr, DecidableEq

/-- `const q = (question || '').toString().trim()` applied to
`const { question } = req.body || {}`. -/
def questionText (body : ReqBody) : String := jsTrim ((body.getD none).getD "")

/-- `!OPENAI_API_KEY`: the key is unset or the empty string. -/
def keyMissing (env : Env) : Bool := (env.OPENAI_API_KEY.getD "") == ""

/-- `(raw || '').split(',').map(s => s.trim()).filter(Boolean)` — the
comma-separated id-list parsing shared by `chat.js` (both variants),
`part_000` and `part_001`. -/
def parseIdList (raw : Option String) : List String :=
  ((jsSplitComma (raw.getD "")).map jsTrim).filter (· ≠ "")

/-! ## The HTTP response sent to the caller

One record covers every JSON body shape occurring across the five
handlers; a field is `none` when the handler's JSON body does not contain
it.  `cors` records whether the two `Access-Control-Allow-*` headers were
set (only the `OPTIONS` branches of the assistant variants set them). -/

structure Resp where
  status : Nat
  error : Option String := none
  detail : Option String := none
  answer : Option String := none
  hint : Option String := none
  reply : Option String := none
  sources : Option (List String) := none
  cors : Bool := false
  deriving Repr, DecidableEq

/-! ## The synchronous Responses-API call

`chat.js` (first handler), `part_001` and `part_002` issue a single `fetch`
to the `/v1/responses` endpoint.  The oracle supplies the outcome: the
`ok` flag and numeric status, the raw body text (read by `resp.text()` on
the error path), and the parsed JSON body (read by `resp.json()` on the
success path). -/

/-- One element of a `content` array: `text` is `some s` exactly when the
`text` field is a string (the code checks `typeof c.text === 'string'`). -/
structure ContentPart where
  type : String
  text : Option String
  deriving Repr, DecidableEq

/-- One element of the `output` array: `content` is `some l` exactly when
the `content` field is an array. -/
structure OutputItem where
  type : String
  content : Option (List ContentPart)
  deriving Repr, DecidableEq

/-- The parsed JSON body of a successful Responses-API reply.
`output_text` is `some s` when the field is a string; `output` is `some l`
when the field is an array; `error` models the `data.error` field read by
the first `chat.js` handler. -/
structure RespBody where
  output_text : Option String := none
  output : Option (List OutputItem) := none
  error : Option String := none
  deriving Repr, DecidableEq

/-- Outcome of the single external `fetch` of a synchronous variant. -/
structure FetchResult where
  ok : Bool
  status : Nat
  text : String
  body : RespBody
  deriving Repr, DecidableEq

/-- The inner loop of the answer-stitching fallback: collect `c.text` for
every content part with `c.type === 'output_text'` and string `text`,
over every output item with `item.type === 'message'` and array
`content`, in order. -/
def collectOutputTexts (items : List OutputItem) : List String :=
  items.foldl (fun acc item =>
    if item.type = "message" then
      match item.content with
      | some cs =>
        acc ++ cs.foldl (fun acc2 c =>
          if c.type = "output_text" then
            match c.text with
            | some t => acc2 ++ [t]
            | none => acc2
          else acc2) []
      | none => acc
    else acc) []

/-- `let answer = data.output_text || ''; if (!answer &&
Array.isArray(data.output)) { …; answer = parts.join('\n').trim(); }` —
the text extraction shared verbatim by the first `chat.js` handler and
`part_001`. -/
def respAnswer (data : RespBody) : String :=
  let answer := data.output_text.getD ""
  if answer = "" then
    match data.output with
    | some items => jsTrim (jsJoin "\n" (collectOutputTexts items))
    | none => answer
  else answer

/-! ## Handler 1: `src/api/chat.js`, first (Responses-API) handler -/

/-- The body of the `try` block of the first `chat.js` handler.  Returns
the response produced by a `return res.status(…).json(…)` together with
the number of external calls issued; a thrown exception would surface as
`.error` (this core never throws within the modelled input space).
`FILE_IDS` is parsed into attachments for the request payload with no
emptiness check; the payload is not modelled. -/
def chatV1Go (method : String) (body : ReqBody) (env : Env) (f : FetchResult) :
    Except String Resp × Nat :=
  if method ≠ "POST" then (.ok { status := 405, error := some "Use POST" }, 0)
  else if questionText body = "" then
    (.ok { status := 400, error := some "No question" }, 0)
  else if keyMissing env then
    (.ok { status := 500, error := some "Missing OPENAI_API_KEY" }, 0)
  else if ¬ f.ok then
    (.ok { status := f.status, error := some "OpenAI error", detail := some f.text }, 1)
  else
    let answer := respAnswer f.body
    if answer = "" then
      (.ok { status := 200, answer := some "",
             error := some (jsOr f.body.error "No answer produced. Check FILE_IDS and logs.") }, 1)
    else (.ok { status := 200, answer := some answer }, 1)

/-- The exported first `chat.js` handler: the `catch (err)` clause maps any
thrown exception to `500 { error: 'Server error', detail: String(err) }`. -/
def chatV1Handler (method : String) (body : ReqBody) (env : Env) (f : FetchResult) :
    Resp × Nat :=
  match chatV1Go method body env f with
  | (.ok r, n) => (r, n)
  | (.error e, n) =>
    ({ status := 500, error := some "Server error", detail := some (errToString e) }, n)

/-! ## Handler 4: `src/unnamed/part_001` (Responses-API) -/

/-- The body of the `try` block of `part_001`.  Identical validation and
extraction to the first `chat.js` handler, but an empty extraction is
replaced by a fixed apology string and the success body carries
`sources: []`. -/
def part001Go (method : String) (body : ReqBody) (env : Env) (f : FetchResult) :
    Except String Resp × Nat :=
  if method ≠ "POST" then (.ok { status := 405, error := some "Use POST" }, 0)
  else if questionText body = "" then
    (.ok { status := 400, error := some "No question provided" }, 0)
  else if keyMissing env then
    (.ok { status := 500, error := some "Missing OPENAI_API_KEY" }, 0)
  else if ¬ f.ok then
    (.ok { status := f.status, error := some "OpenAI error", detail := some f.text }, 1)
  else
    let answer := respAnswer f.body
    let answer := if answer = "" then "Sorry—I couldn’t find a clear answer in the uploaded files." else answer
    (.ok { status := 200, answer := some answer, sources := some [] }, 1)

/-- The exported `part_001` handler (same `catch` shape as `chat.js`). -/
def part001Handler (method : String) (body : ReqBody) (env : Env) (f : FetchResult) :
    Resp × Nat :=
  match part001Go method body env f with
  | (.ok r, n) => (r, n)
  | (.error e, n) =>
    ({ status := 500, error := some "Server error", detail := some (errToString e) }, n)

/-! ## Handler 5: `src/unnamed/part_002` (Responses-API) -/

/-- The message of the `TypeError` thrown by
`const { question } = req.body;` when `req.body` is nullish.  The exact
wording is the JavaScript engine's; only its presence in the 500 body
matters below. -/
def destructureErrMsg : String :=
  "Cannot destructure property question of req.body as it is undefined."

/-- The body of the `try` block of `part_002`.  There is no validation of
`question` and no check of `OPENAI_API_KEY`: the external call is issued
unconditionally.  A non-ok external response is thrown
(`throw new Error(\x7bOpenAI error: …\x7d)`) rather than relayed, and the
reply is `data.output_text || "Sorry, no answer."` with no stitching
fallback.  (`FILE_IDS` is split on commas, without trimming or filtering,
purely for the request payload, which is not modelled.) -/
def part002Go (method : String) (body : ReqBody) (_env : Env) (f : FetchResult) :
    Except String Resp × Nat :=
  if method ≠ "POST" then (.ok { status := 405, error := some "Method not allowed" }, 0)
  else
    match body with
    | none => (.error destructureErrMsg, 0)
    | some _question =>
      if ¬ f.ok then (.error ("OpenAI error: " ++ f.text), 1)
      else (.ok { status := 200, reply := some (jsOr f.body.output_text "Sorry, no answer.") }, 1)

/-- The exported `part_002` handler: the method guard sits outside the
`try`, and `catch (err)` answers `500 { error: err.message }`. -/
def part002Handler (method : String) (body : ReqBody) (env : Env) (f : FetchResult) :
    Resp × Nat :=
  match part002Go method body env f with
  | (.ok r, n) => (r, n)
  | (.error e, n) => ({ status := 500, error := some e }, n)

/-! ## The asynchronous Assistants-API workflow

The second `chat.js` handler and `part_000` create an assistant, a thread
and a run (three external calls), poll the run status in a loop, then list
the thread's messages.  The oracle below supplies the outcome of each of
those calls.  Time advances only at the `await sleep(1200)` between polls
(external calls are modelled as instantaneous), so at the `k`-th status
check the clock reads `1200 * k` milliseconds. -/

/-- The `last_error` object of a run; both fields may be absent. -/
structure LastError where
  message : Option String := none
  code : Option String := none
  deriving Repr, DecidableEq

/-- The parsed run object returned by the status-poll endpoint. -/
structure RunObj where
  status : String
  last_error : Option LastError := none
  deriving Repr, DecidableEq

/-- Outcome of one status-poll `fetch`: either a non-ok HTTP response
(with its status and body text) or a parsed run object. -/
inductive PollResp where
  | httpError (status : Nat) (text : String)
  | ok (run : RunObj)
  deriving Repr, DecidableEq

/-- `["failed", "cancelled", "expired"]` — the terminal failure statuses
tested by `waitForRun` in both asynchronous variants. -/
def terminalFailStatuses : List String := ["failed", "cancelled", "expired"]

/-- Structured exit of the `waitForRun` `while` loop, shared by both
asynchronous variants (they differ only in the error messages they build
from it). -/
inductive WaitOutcome where
  | completed (run : RunObj)
  | httpError (status : Nat) (text : String)
  | terminalFail (run : RunObj)
  | timedOut
  deriving Repr, DecidableEq

/-- One poll returning a run that is neither `completed` nor a terminal
failure (the run is still `queued`/`in_progress`). -/
def nonTerminalPoll : PollResp → Bool
  | .httpError _ _ => false
  | .ok run => ¬ (run.status = "completed" ∨ run.status ∈ terminalFailStatuses)

/-- The `while (Date.now() - start < timeoutMs)` loop of `waitForRun`.
`elapsed` is the clock at the loop condition, `k` the number of status
checks already issued, `fuel` a bound on the remaining iterations (the
source loop terminates by the clock; `waitGo_isSome` below shows the fuel
chosen in `waitForRun` is never exhausted, so the `none` case is
unreachable there).  The result pairs the loop exit with the total number
of status checks issued. -/
def waitGo (poll : Nat → PollResp) (timeoutMs : Nat) :
    Nat → Nat → Nat → Option (WaitOutcome × Nat)
  | _, _, 0 => none
  | elapsed, k, fuel + 1 =>
    if elapsed < timeoutMs then
      match poll k with
      | .httpError st tx => some (.httpError st tx, k + 1)
      | .ok run =>
        if run.status = "completed" then some (.completed run, k + 1)
        else if run.status ∈ terminalFailStatuses then some (.terminalFail run, k + 1)
        else waitGo poll timeoutMs (elapsed + 1200) (k + 1) fuel
    else some (.timedOut, k)

/-- `waitForRun`'s loop, run from a zero clock with provably sufficient
fuel (`timeoutMs / 1200 + 2`); the `.getD` default is unreachable
(`waitForRun_eq` below). -/
def waitForRun (poll : Nat → PollResp) (timeoutMs : Nat) : WaitOutcome × Nat :=
  (waitGo poll timeoutMs 0 0 (timeoutMs / 1200 + 2)).getD (.timedOut, 0)

/-- `run.last_error?.message || ""` (second `chat.js` handler). -/
def chatV2LastErrMsg (run : RunObj) : String :=
  (run.last_error.bind (·.message)).getD ""

/-- The error message built by the second `chat.js` handler's `waitForRun`
from a loop exit, and the run object on success: a non-ok poll throws
`Run status error: ${await r.text()}`, a terminal failure throws
`Run ${run.status}: ${run.last_error?.message || ""}`, and running out the
clock throws `Run timed out waiting for completion` (timeout 45000 ms). -/
def chatV2RunOutcome : WaitOutcome → Except String RunObj
  | .completed run => .ok run
  | .httpError _ tx => .error ("Run status error: " ++ tx)
  | .terminalFail run => .error ("Run " ++ run.status ++ ": " ++ chatV2LastErrMsg run)
  | .timedOut => .error "Run timed out waiting for completion"

/-- `run.last_error?.message || `Run ${run.status}${run.last_error?.code ?
` (${run.last_error.code})` : ""}`` (part_000's terminal-failure
message). -/
def part000TerminalMsg (run : RunObj) : String :=
  let m := (run.last_error.bind (·.message)).getD ""
  if m ≠ "" then m
  else
    let c := (run.last_error.bind (·.code)).getD ""
    "Run " ++ run.status ++ (if c ≠ "" then " (" ++ c ++ ")" else "")

/-- The error message built by `part_000`'s `waitForRun` from a loop exit:
a non-ok poll throws `Run status error ${r.status}: ${JSON.stringify(detail)}`
(the oracle's `text` stands for the stringified detail), a terminal
failure throws `part000TerminalMsg`, and running out the clock throws
`Run timed out waiting for completion` (timeout 60000 ms). -/
def part000RunOutcome : WaitOutcome → Except String RunObj
  | .completed run => .ok run
  | .httpError st tx => .error ("Run status error " ++ toString st ++ ": " ++ tx)
  | .terminalFail run => .error (part000TerminalMsg run)
  | .timedOut => .error "Run timed out waiting for completion"

/-! ## Message listing and text extraction (asynchronous variants) -/

/-- One element of a message's `content` array: `value` is `some s`
exactly when `part.text?.value` is a string `s`. -/
structure MsgPart where
  type : String
  value : Option String := none
  deriving Repr, DecidableEq

/-- One message of the thread, as listed in descending (newest-first)
order; `content` is `some l` exactly when the `content` field is an
array. -/
structure Msg where
  role : String
  content : Option (List MsgPart) := none
  deriving Repr, DecidableEq

/-- The parsed body of the message-listing reply: `data` may be absent
(`msgs?.data` / `out.data || []`). -/
structure MsgsBody where
  data : Option (List Msg) := none
  deriving Repr, DecidableEq

/-- The extraction of the second `chat.js` handler, lines 219–229: take
`msgs?.data?.[0]` — the newest message, with NO check of its role — and
append `part.text.value` for every part with `part.type === "text"` and a
string `value` (no separator), then trim.  If there is no first message
or its `content` is not an array, the answer stays `""`. -/
def chatV2ExtractText (msgsBody : MsgsBody) : String :=
  match (msgsBody.data.getD []).head? with
  | some latest =>
    match latest.content with
    | some parts =>
      jsTrim (parts.foldl (fun acc part =>
        if part.type = "text" then
          match part.value with
          | some v => acc ++ v
          | none => acc
        else acc) "")
    | none => ""
  | none => ""

/-- `(out.data || []).find((m) => m.role === "assistant")` — `part_000`
selects the first assistant-role message of the newest-first listing. -/
def part000SelectedMsg (msgsData : List Msg) : Option Msg :=
  msgsData.find? (fun m => m.role == "assistant")

/-- `part_000`'s `getLatestAssistantText`, lines 77–87 (after a
successful listing): find the first assistant message; if none, or its
`content` is not an array, return `""`; otherwise append
`part.text.value + "\n"` for every part with `part.type === "text"` and a
truthy (present, non-empty) `value`, then trim. -/
def getLatestAssistantText (msgsBody : MsgsBody) : String :=
  match part000SelectedMsg (msgsBody.data.getD []) with
  | none => ""
  | some msg =>
    match msg.content with
    | some parts =>
      jsTrim (parts.foldl (fun acc part =>
        if part.type = "text" ∧ part.value.getD "" ≠ "" then
          acc ++ part.value.getD "" ++ "\n"
        else acc) "")
    | none => ""

/-! ## Handlers 2 and 3: the Assistants-API variants -/

/-- Outcome of one of the non-poll external calls (create assistant,
create thread, create run, list messages): the `ok` flag, numeric status
and body text for the error path.  The created resource ids only feed
later request URLs/payloads, which are not modelled. -/
structure StepResult where
  ok : Bool
  status : Nat
  text : String
  deriving Repr, DecidableEq

/-- Oracle for one request handled by an Assistants-API variant: the
outcomes of the three creation calls, of every status poll, and of the
message listing (with its parsed body, used only when `msgsOk.ok`). -/
structure AsstOracle where
  assistantResp : StepResult
  threadResp : StepResult
  runResp : StepResult
  poll : Nat → PollResp
  msgsResp : StepResult
  msgs : MsgsBody

/-- The body of the `try` block of the second `chat.js` handler
(`chat.js` lines 117–239): CORS/method/question/key/vector-store guards,
three creation calls each relaying a non-ok status verbatim, the 45-second
run wait (whose thrown errors surface as `.error`), a message listing
relaying a non-ok status verbatim, and the role-blind extraction. -/
def chatV2Go (method : String) (body : ReqBody) (env : Env) (o : AsstOracle) :
    Except String Resp × Nat :=
  if method = "OPTIONS" then (.ok { status := 200, cors := true }, 0)
  else if method ≠ "POST" then (.ok { status := 405, error := some "Use POST" }, 0)
  else if questionText body = "" then
    (.ok { status := 400, error := some "No question provided" }, 0)
  else if keyMissing env then
    (.ok { status := 500, error := some "Missing OPENAI_API_KEY" }, 0)
  else if parseIdList env.VECTOR_STORE_IDS = [] then
    (.ok { status := 500, error := some "No vector store configured",
           detail := some "Set VECTOR_STORE_IDS in Vercel (vs_...) and redeploy. Add your files to that vector store." }, 0)
  else if ¬ o.assistantResp.ok then
    (.ok { status := o.assistantResp.status, error := some "Create assistant error",
           detail := some o.assistantResp.text }, 1)
  else if ¬ o.threadResp.ok then
    (.ok { status := o.threadResp.status, error := some "Create thread error",
           detail := some o.threadResp.text }, 2)
  else if ¬ o.runResp.ok then
    (.ok { status := o.runResp.status, error := some "Create run error",
           detail := some o.runResp.text }, 3)
  else
    let w := waitForRun o.poll 45000
    match chatV2RunOutcome w.1 with
    | .error e => (.error e, 3 + w.2)
    | .ok _run =>
      if ¬ o.msgsResp.ok then
        (.ok { status := o.msgsResp.status, error := some "List messages error",
               detail := some o.msgsResp.text }, 3 + w.2 + 1)
      else
        let answer := chatV2ExtractText o.msgs
        if answer = "" then
          (.ok { status := 200, answer := some "",
                 error := some "No answer produced. Ensure your vector store contains a small, clear test PDF and try again." }, 3 + w.2 + 1)
        else (.ok { status := 200, answer := some answer }, 3 + w.2 + 1)

/-- The exported second `chat.js` handler (same `catch` shape as the
first: `500 { error: 'Server error', detail: String(err) }`). -/
def chatV2Handler (method : String) (body : ReqBody) (env : Env) (o : AsstOracle) :
    Resp × Nat :=
  match chatV2Go method body env o with
  | (.ok r, n) => (r, n)
  | (.error e, n) =>
    ({ status := 500, error := some "Server error", detail := some (errToString e) }, n)

/-- The body of the `try` block of `part_000` (lines 92–208): the same
skeleton as the second `chat.js` handler with `part_000`'s strings, a
60-second run wait, the message listing performed inside
`getLatestAssistantText` (a non-ok listing throws
`List messages error ${r.status}: ${JSON.stringify(detail)}` instead of
relaying), assistant-role-filtered extraction, and a `hint` field on the
empty-answer path. -/
def part000Go (method : String) (body : ReqBody) (env : Env) (o : AsstOracle) :
    Except String Resp × Nat :=
  if method = "OPTIONS" then (.ok { status := 200, cors := true }, 0)
  else if method ≠ "POST" then (.ok { status := 405, error := some "Use POST" }, 0)
  else if questionText body = "" then
    (.ok { status := 400, error := some "No question provided" }, 0)
  else if keyMissing env then
    (.ok { status := 500, error := some "Missing OPENAI_API_KEY" }, 0)
  else if parseIdList env.VECTOR_STORE_IDS = [] then
    (.ok { status := 500, error := some "No vector store configured",
           detail := some "Set VECTOR_STORE_IDS (vs_...) in Vercel → Settings → Environment Variables and redeploy." }, 0)
  else if ¬ o.assistantResp.ok then
    (.ok { status := o.assistantResp.status, error := some "Create assistant error",
           detail := some o.assistantResp.text }, 1)
  else if ¬ o.threadResp.ok then
    (.ok { status := o.threadResp.status, error := some "Create thread error",
           detail := some o.threadResp.text }, 2)
  else if ¬ o.runResp.ok then
    (.ok { status := o.runResp.status, error := some "Create run error",
           detail := some o.runResp.text }, 3)
  else
    let w := waitForRun o.poll 60000
    match part000RunOutcome w.1 with
    | .error e => (.error e, 3 + w.2)
    | .ok _run =>
      if ¬ o.msgsResp.ok then
        (.error ("List messages error " ++ toString o.msgsResp.status ++ ": " ++ o.msgsResp.text),
         3 + w.2 + 1)
      else
        let answer := getLatestAssistantText o.msgs
        if answer = "" then
          (.ok { status := 200, answer := some "",
                 hint := some "No text returned. Ensure the vector store has a small test PDF, status=completed, and that your question matches the file’s wording." }, 3 + w.2 + 1)
        else (.ok { status := 200, answer := some answer }, 3 + w.2 + 1)

/-- `String(err?.message || err)` in `part_000`'s `catch`: thrown `Error`s
are modelled by their message `e`, so the detail is `e` itself unless the
message is empty, in which case `String(err)` stringifies the `Error`. -/
def part000ErrDetail (e : String) : String :=
  if e = "" then errToString e else e

/-- The exported `part_000` handler: `catch (err)` answers
`500 { error: 'Server error', detail: String(err?.message || err) }`. -/
def part000Handler (method : String) (body : ReqBody) (env : Env) (o : AsstOracle) :
    Resp × Nat :=
  match part000Go method body env o with
  | (.ok r, n) => (r, n)
  | (.error e, n) =>
    ({ status := 500, error := some "Server error", detail := some (part000ErrDetail e) }, n)

/-! ## Loop lemmas

The `while` loop of `waitForRun` is embedded with a fuel parameter; the
lemmas below show the fuel chosen in `waitForRun` is sufficient (the
source loop terminates by the clock alone), that a never-terminal run
makes the loop time out after a bounded number of status checks, and that
the loop stops at the first terminal status it observes. -/

/-- One unfolding step of the loop at positive fuel. -/
theorem waitGo_succ (poll : Nat → PollResp) (t elapsed k fuel : Nat) :
    waitGo poll t elapsed k (fuel + 1) =
      if elapsed < t then
        match poll k with
        | .httpError st tx => some (.httpError st tx, k + 1)
        | .ok run =>
          if run.status = "completed" then some (.completed run, k + 1)
          else if run.status ∈ terminalFailStatuses then some (.terminalFail run, k + 1)
          else waitGo poll t (elapsed + 1200) (k + 1) fuel
      else some (.timedOut, k) := rfl

/-- Step lemma: the loop at positive fuel and open clock, observing a
non-ok poll response. -/
theorem waitGo_step_http (poll : Nat → PollResp) (t elapsed k fuel st : Nat) (tx : String)
    (hlt : elapsed < t) (hp : poll k = PollResp.httpError st tx) :
    waitGo poll t elapsed k (fuel + 1) = some (.httpError st tx, k + 1) := by
  rw [waitGo_succ, if_pos hlt, hp]

/-- Step lemma: the loop at positive fuel and open clock, observing a
parsed run object. -/
theorem waitGo_step_ok (poll : Nat → PollResp) (t elapsed k fuel : Nat) (run : RunObj)
    (hlt : elapsed < t) (hp : poll k = PollResp.ok run) :
    waitGo poll t elapsed k (fuel + 1) =
      if run.status = "completed" then some (.completed run, k + 1)
      else if run.status ∈ terminalFailStatuses then some (.terminalFail run, k + 1)
      else waitGo poll t (elapsed + 1200) (k + 1) fuel := by
  rw [waitGo_succ, if_pos hlt, hp]

/-- Step lemma: the loop once the clock has run out. -/
theorem waitGo_step_timeout (poll : Nat → PollResp) (t elapsed k fuel : Nat)
    (hlt : ¬ elapsed < t) :
    waitGo poll t elapsed k (fuel + 1) = some (.timedOut, k) := by
  rw [waitGo_succ, if_neg hlt]

/-- Since each iteration advances the clock by 1200 ms, fuel covering the
remaining time keeps the loop from exhausting. -/
theorem waitGo_isSome (poll : Nat → PollResp) (t : Nat) :
    ∀ fuel elapsed k, t ≤ elapsed + 1200 * fuel →
      (waitGo poll t elapsed k (fuel + 1)).isSome := by
  intro fuel
  induction fuel with
  | zero =>
    intro elapsed k h
    rw [waitGo_step_timeout poll t elapsed k 0 (by omega)]
    rfl
  | succ fuel ih =>
    intro elapsed k h
    by_cases hlt : elapsed < t
    · cases hp : poll k with
      | httpError st tx => rw [waitGo_step_http poll t elapsed k _ st tx hlt hp]; rfl
      | ok run =>
        rw [waitGo_step_ok poll t elapsed k _ run hlt hp]
        by_cases hc : run.status = "completed"
        · rw [if_pos hc]; rfl
        · rw [if_neg hc]
          by_cases hterm : run.status ∈ terminalFailStatuses
          · rw [if_pos hterm]; rfl
          · rw [if_neg hterm]
            exact ih (elapsed + 1200) (k + 1) (by omega)
    · rw [waitGo_step_timeout poll t elapsed k _ hlt]; rfl

/-- `waitForRun` is the loop itself: the `getD` default is unreachable. -/
theorem waitForRun_some (poll : Nat → PollResp) (t : Nat) :
    waitGo poll t 0 0 (t / 1200 + 2) = some (waitForRun poll t) := by
  have h1 := Nat.div_add_mod t 1200
  have h2 : t % 1200 < 1200 := Nat.mod_lt _ (by omega)
  have hs := waitGo_isSome poll t (t / 1200 + 1) 0 0 (by omega)
  rw [waitForRun]
  obtain ⟨x, hx⟩ := Option.isSome_iff_exists.mp (by
    have h3 : t / 1200 + 1 + 1 = t / 1200 + 2 := by omega
    rw [h3] at hs
    exact hs)
  rw [hx]
  rfl

/-- If every status check reports a non-terminal run, the loop can only
exit by the clock, after at most `k + fuel` status checks. -/
theorem waitGo_nonterminal (poll : Nat → PollResp) (t : Nat)
    (hpoll : ∀ k, nonTerminalPoll (poll k) = true) :
    ∀ fuel elapsed k o n, waitGo poll t elapsed k fuel = some (o, n) →
      o = WaitOutcome.timedOut ∧ n ≤ k + fuel := by
  intro fuel
  induction fuel with
  | zero => intro elapsed k o n h; exact absurd h (by rw [waitGo]; simp)
  | succ fuel ih =>
    intro elapsed k o n h
    by_cases hlt : elapsed < t
    · have hk := hpoll k
      cases hp : poll k with
      | httpError st tx => rw [hp] at hk; exact absurd hk (by simp [nonTerminalPoll])
      | ok run =>
        rw [hp] at hk
        have hnc : ¬ (run.status = "completed" ∨ run.status ∈ terminalFailStatuses) := by
          simpa [nonTerminalPoll] using hk
        push_neg at hnc
        rw [waitGo_step_ok poll t elapsed k _ run hlt hp, if_neg hnc.1, if_neg hnc.2] at h
        obtain ⟨ho, hn⟩ := ih (elapsed + 1200) (k + 1) o n h
        exact ⟨ho, by omega⟩
    · rw [waitGo_step_timeout poll t elapsed k _ hlt] at h
      simp only [Option.some.injEq, Prod.mk.injEq] at h
      exact ⟨h.1.symm, by omega⟩

/-- If the first `j` status checks report non-terminal runs, the `j`-th
reports `completed`, and both clock and fuel cover those iterations, the
loop exits with that run after exactly `k + j + 1` status checks — in
particular it issues no status check beyond the first terminal one. -/
theorem waitGo_completes (poll : Nat → PollResp) (t : Nat) (run : RunObj) :
    ∀ j fuel elapsed k, j < fuel → elapsed + 1200 * j < t →
      (∀ i, i < j → nonTerminalPoll (poll (k + i)) = true) →
      poll (k + j) = PollResp.ok run → run.status = "completed" →
      waitGo poll t elapsed k fuel = some (.completed run, k + j + 1) := by
  intro j
  induction j with
  | zero =>
    intro fuel elapsed k hfuel hclock _ hj hc
    obtain ⟨fuel', rfl⟩ := Nat.exists_eq_add_of_lt hfuel
    rw [Nat.add_zero] at hj
    rw [show 0 + fuel' + 1 = fuel' + 1 by omega]
    rw [waitGo_step_ok poll t elapsed k fuel' run (by omega) hj, if_pos hc]
  | succ j ih =>
    intro fuel elapsed k hfuel hclock hnt hj hc
    obtain ⟨fuel', rfl⟩ := Nat.exists_eq_add_of_lt hfuel
    have h0 := hnt 0 (by omega)
    rw [Nat.add_zero] at h0
    cases hp : poll k with
    | httpError st tx => rw [hp] at h0; exact absurd h0 (by simp [nonTerminalPoll])
    | ok r =>
      rw [hp] at h0
      have hnc : ¬ (r.status = "completed" ∨ r.status ∈ terminalFailStatuses) := by
        simpa [nonTerminalPoll] using h0
      push_neg at hnc
      rw [show j + 1 + fuel' + 1 = (j + fuel' + 1) + 1 by omega]
      rw [waitGo_step_ok poll t elapsed k (j + fuel' + 1) r (by omega) hp,
        if_neg hnc.1, if_neg hnc.2]
      have hrec := ih (j + fuel' + 1) (elapsed + 1200) (k + 1) (by omega) (by omega)
        (fun i hi => by
          have hx := hnt (i + 1) (by omega)
          rwa [show k + (i + 1) = k + 1 + i by omega] at hx)
        (by rwa [show k + 1 + j = k + (j + 1) by omega])
        hc
      rw [hrec]
      congr 2
      omega

/-! ## Shared concrete inputs for witnesses and counterexamples -/

/-- An oracle in which every external call succeeds, the run completes at
the first status check, and the thread has no messages. -/
def idleOracle : AsstOracle where
  assistantResp := ⟨true, 200, ""⟩
  threadResp := ⟨true, 200, ""⟩
  runResp := ⟨true, 200, ""⟩
  poll := fun _ => PollResp.ok ⟨"completed", none⟩
  msgsResp := ⟨true, 200, ""⟩
  msgs := {}

/-- A status sequence `queued → in_progress → completed`. -/
def c9PollSeq : Nat → PollResp := fun k =>
  if k = 0 then PollResp.ok ⟨"queued", none⟩
  else if k = 1 then PollResp.ok ⟨"in_progress", none⟩
  else PollResp.ok ⟨"completed", none⟩

/-- A successful workflow whose run goes `queued → in_progress →
completed` and whose thread holds one assistant message with text "A". -/
def c9Oracle : AsstOracle where
  assistantResp := ⟨true, 200, ""⟩
  threadResp := ⟨true, 200, ""⟩
  runResp := ⟨true, 200, ""⟩
  poll := c9PollSeq
  msgsResp := ⟨true, 200, ""⟩
  msgs := { data := some [⟨"assistant", some [⟨"text", some "A"⟩]⟩] }

/-- A workflow whose creation calls succeed and whose run fails at the
first status check with `last_error.message = "boom"`. -/
def failedRunOracle : AsstOracle where
  assistantResp := ⟨true, 200, ""⟩
  threadResp := ⟨true, 200, ""⟩
  runResp := ⟨true, 200, ""⟩
  poll := fun _ => PollResp.ok ⟨"failed", some ⟨some "boom", none⟩⟩
  msgsResp := ⟨true, 200, ""⟩
  msgs := {}

/-! ## Claims -/

/-- C7: In the synchronous protocol, for an external response with no
`output_text` and an `output` array containing one message item whose
content has two text segments "A" and "B", the returned answer equals
"A\nB": all text segments are joined in order, separated by newlines,
then trimmed.  Shown for the shared extraction and through both handlers
that implement it (first `chat.js` handler and `part_001`). -/
theorem C7_sync_two_segment_join :
    respAnswer { output := some [⟨"message",
        some [⟨"output_text", some "A"⟩, ⟨"output_text", some "B"⟩]⟩] } = "A\nB"
    ∧ (chatV1Handler "POST" (some (some "q")) ⟨some "k", some "file_1", none⟩
        ⟨true, 200, "", { output := some [⟨"message",
          some [⟨"output_text", some "A"⟩, ⟨"output_text", some "B"⟩]⟩] }⟩).1 =
      { status := 200, answer := some "A\nB" }
    ∧ (part001Handler "POST" (some (some "q")) ⟨some "k", some "file_1", none⟩
        ⟨true, 200, "", { output := some [⟨"message",
          some [⟨"output_text", some "A"⟩, ⟨"output_text", some "B"⟩]⟩] }⟩).1 =
      { status := 200, answer := some "A\nB", sources := some [] } := by
  exact ⟨by decide, by decide, by decide⟩

/-- C8: For an asynchronous job that never reaches a terminal status, the
polling loop — one status check per 1.2-second tick — exits once the
45-second (`chat.js`) or 60-second (`part_000`) timeout elapses, with the
timeout-specific message `Run timed out waiting for completion`; the
number of status checks is bounded (at most 39 resp. 52), so the loop
never runs unboundedly. -/
theorem C8_poll_loop_times_out (poll : Nat → PollResp)
    (hpoll : ∀ k, nonTerminalPoll (poll k) = true) :
    (waitForRun poll 45000).1 = WaitOutcome.timedOut
    ∧ (waitForRun poll 45000).2 ≤ 39
    ∧ (waitForRun poll 60000).1 = WaitOutcome.timedOut
    ∧ (waitForRun poll 60000).2 ≤ 52
    ∧ chatV2RunOutcome (waitForRun poll 45000).1 =
        .error "Run timed out waiting for completion"
    ∧ part000RunOutcome (waitForRun poll 60000).1 =
        .error "Run timed out waiting for completion" := by
  have h45 := waitForRun_some poll 45000
  have h60 := waitForRun_some poll 60000
  obtain ⟨o45, n45, hw45⟩ : ∃ o n, waitForRun poll 45000 = (o, n) :=
    ⟨_, _, rfl⟩
  obtain ⟨o60, n60, hw60⟩ : ∃ o n, waitForRun poll 60000 = (o, n) :=
    ⟨_, _, rfl⟩
  rw [hw45] at h45
  rw [hw60] at h60
  obtain ⟨ho45, hn45⟩ := waitGo_nonterminal poll 45000 hpoll _ _ _ _ _ h45
  obtain ⟨ho60, hn60⟩ := waitGo_nonterminal poll 60000 hpoll _ _ _ _ _ h60
  rw [hw45, hw60, ho45, ho60]
  refine ⟨rfl, by omega, rfl, by omega, rfl, rfl⟩

/-- Witness for C8 at the constant status `queued`. -/
theorem C8_poll_loop_times_out_witness :
    (waitForRun (fun _ => PollResp.ok ⟨"queued", none⟩) 45000).1 = WaitOutcome.timedOut
    ∧ (waitForRun (fun _ => PollResp.ok ⟨"queued", none⟩) 60000).1 = WaitOutcome.timedOut :=
  ⟨(C8_poll_loop_times_out (fun _ => PollResp.ok ⟨"queued", none⟩) (fun _ => rfl)).1,
   (C8_poll_loop_times_out (fun _ => PollResp.ok ⟨"queued", none⟩) (fun _ => rfl)).2.2.1⟩

/-- C9: For a job whose observed status sequence is queued → in_progress →
completed, the poll loop (either variant's timeout) exits on the third
status check with the completed run and — being universally quantified
over every later poll answer — never issues a status check after the
terminal one; the `part_000` handler then proceeds to message extraction
and returns the extracted answer. -/
theorem C9_terminal_status_stops_polling (poll : Nat → PollResp)
    (h0 : poll 0 = PollResp.ok ⟨"queued", none⟩)
    (h1 : poll 1 = PollResp.ok ⟨"in_progress", none⟩)
    (h2 : poll 2 = PollResp.ok ⟨"completed", none⟩) :
    waitForRun poll 45000 = (WaitOutcome.completed ⟨"completed", none⟩, 3)
    ∧ waitForRun poll 60000 = (WaitOutcome.completed ⟨"completed", none⟩, 3)
    ∧ part000Handler "POST" (some (some "q")) ⟨some "k", none, some "vs1"⟩ c9Oracle =
      ({ status := 200, answer := some "A" }, 7) := by
  have hnt : ∀ i, i < 2 → nonTerminalPoll (poll (0 + i)) = true := by
    intro i hi
    interval_cases i
    · rw [show (0 : Nat) + 0 = 0 by rfl, h0]; decide
    · rw [show (0 : Nat) + 1 = 1 by rfl, h1]; decide
  have hc2 : poll (0 + 2) = PollResp.ok ⟨"completed", none⟩ := by
    rwa [show (0 : Nat) + 2 = 2 by rfl]
  have hgo45 := waitGo_completes poll 45000 ⟨"completed", none⟩ 2 (45000 / 1200 + 2)
    0 0 (by norm_num) (by norm_num) hnt hc2 rfl
  have hgo60 := waitGo_completes poll 60000 ⟨"completed", none⟩ 2 (60000 / 1200 + 2)
    0 0 (by norm_num) (by norm_num) hnt hc2 rfl
  have h45 := waitForRun_some poll 45000
  have h60 := waitForRun_some poll 60000
  rw [hgo45] at h45
  rw [hgo60] at h60
  exact ⟨(Option.some.inj h45).symm, (Option.some.inj h60).symm, by decide⟩

/-- Witness for C9 at the concrete sequence `c9PollSeq`. -/
theorem C9_terminal_status_stops_polling_witness :
    waitForRun c9PollSeq 45000 = (WaitOutcome.completed ⟨"completed", none⟩, 3)
    ∧ waitForRun c9PollSeq 60000 = (WaitOutcome.completed ⟨"completed", none⟩, 3) :=
  ⟨(C9_terminal_status_stops_polling c9PollSeq (by decide) (by decide) (by decide)).1,
   (C9_terminal_status_stops_polling c9PollSeq (by decide) (by decide) (by decide)).2.1⟩

/-- C4 counterexample: an `OPTIONS` request to `part_001` (and likewise to
the other Responses-API variants) is answered `405 Use POST` with no CORS
headers — not `200` as the claim states.  (It still triggers no external
call; see the C4 theorem.) -/
theorem C4_options_counterexample :
    (part001Handler "OPTIONS" none ⟨some "k", some "file_1", none⟩
        ⟨true, 200, "", {}⟩).1 = { status := 405, error := some "Use POST" }
    ∧ (part001Handler "OPTIONS" none ⟨some "k", some "file_1", none⟩
        ⟨true, 200, "", {}⟩).1.status ≠ 200 := by
  exact ⟨by decide, by decide⟩

/-- C4 as amended: an `OPTIONS` request never triggers an external call in
any of the five handlers; the Assistants-API variants (second `chat.js`
handler, `part_000`) answer `200` with the CORS headers set, while the
Responses-API variants (first `chat.js` handler, `part_001`, `part_002`)
answer `405` without them. -/
theorem C4_options_behavior (body : ReqBody) (env : Env) (f : FetchResult) (o : AsstOracle) :
    chatV2Handler "OPTIONS" body env o = ({ status := 200, cors := true }, 0)
    ∧ part000Handler "OPTIONS" body env o = ({ status := 200, cors := true }, 0)
    ∧ chatV1Handler "OPTIONS" body env f = ({ status := 405, error := some "Use POST" }, 0)
    ∧ part001Handler "OPTIONS" body env f = ({ status := 405, error := some "Use POST" }, 0)
    ∧ part002Handler "OPTIONS" body env f = ({ status := 405, error := some "Method not allowed" }, 0) := by
  exact ⟨rfl, rfl, rfl, rfl, rfl⟩

/-- C1 counterexample: `part_002` performs no validation of `question`: a
`POST` with an empty question is forwarded to the external completion API
(one call issued) and answered `200` — not rejected with `400` and no
call, as the claim states for every handler. -/
theorem C1_part002_counterexample :
    part002Handler "POST" (some (some "")) ⟨some "k", some "file_1", none⟩
        ⟨true, 200, "", { output_text := some "hi" }⟩ =
      ({ status := 200, reply := some "hi" }, 1) := by
  decide

/-- C1 as amended: in the four handlers that validate the question (both
`chat.js` handlers, `part_000`, `part_001`), a `POST` whose `question` is
absent, empty, or whitespace-only after trimming is answered `400` with
no external call; `part_002` performs no such validation and issues the
external call regardless. -/
theorem C1_blank_question_rejected (body : ReqBody) (env : Env)
    (f : FetchResult) (o : AsstOracle) (hq : questionText body = "") :
    chatV1Handler "POST" body env f = ({ status := 400, error := some "No question" }, 0)
    ∧ part001Handler "POST" body env f = ({ status := 400, error := some "No question provided" }, 0)
    ∧ chatV2Handler "POST" body env o = ({ status := 400, error := some "No question provided" }, 0)
    ∧ part000Handler "POST" body env o = ({ status := 400, error := some "No question provided" }, 0) := by
  refine ⟨?_, ?_, ?_, ?_⟩
  · simp [chatV1Handler, chatV1Go, hq]
  · simp [part001Handler, part001Go, hq]
  · simp [chatV2Handler, chatV2Go, hq]
  · simp [part000Handler, part000Go, hq]

/-- Witness for C1 at a whitespace-only question. -/
theorem C1_blank_question_rejected_witness :
    questionText (some (some "   ")) = ""
    ∧ (chatV1Handler "POST" (some (some "   ")) ⟨some "k", some "file_1", some "vs1"⟩
        ⟨true, 200, "", {}⟩).1.status = 400 := by
  refine ⟨by decide, ?_⟩
  have h := C1_blank_question_rejected (some (some "   "))
    ⟨some "k", some "file_1", some "vs1"⟩ ⟨true, 200, "", {}⟩ idleOracle (by decide)
  rw [h.1]

/-- C2 counterexample: with the API key set but no document-store
identifiers and no document identifiers configured at all, the first
`chat.js` handler (and likewise `part_001`) does not fail: it builds an
empty attachment list and issues the external call, answering `200` — not
the claimed `500` configuration error with no call. -/
theorem C2_no_document_config_counterexample :
    parseIdList (none : Option String) = []
    ∧ chatV1Handler "POST" (some (some "q")) ⟨some "k", none, none⟩
        ⟨true, 200, "", { output_text := some "hi" }⟩ =
      ({ status := 200, answer := some "hi" }, 1) := by
  exact ⟨by decide, by decide⟩

/-- C2 as amended: a missing (or empty) API key makes both `chat.js`
handlers, `part_000` and `part_001` answer
`500 Missing OPENAI_API_KEY` with no external call (`part_002` has no
such check); a missing vector-store configuration makes the two
Assistants-API variants answer `500 No vector store configured` with no
external call; the file-ID variants (first `chat.js` handler, `part_001`,
`part_002`) have no corresponding check and proceed with an empty
attachment list. -/
theorem C2_config_errors (body : ReqBody) (env : Env)
    (f : FetchResult) (o : AsstOracle) (hq : questionText body ≠ "") :
    (keyMissing env = true →
      chatV1Handler "POST" body env f = ({ status := 500, error := some "Missing OPENAI_API_KEY" }, 0)
      ∧ part001Handler "POST" body env f = ({ status := 500, error := some "Missing OPENAI_API_KEY" }, 0)
      ∧ chatV2Handler "POST" body env o = ({ status := 500, error := some "Missing OPENAI_API_KEY" }, 0)
      ∧ part000Handler "POST" body env o = ({ status := 500, error := some "Missing OPENAI_API_KEY" }, 0))
    ∧ (keyMissing env = false → parseIdList env.VECTOR_STORE_IDS = [] →
      chatV2Handler "POST" body env o =
        ({ status := 500, error := some "No vector store configured",
           detail := some "Set VECTOR_STORE_IDS in Vercel (vs_...) and redeploy. Add your files to that vector store." }, 0)
      ∧ part000Handler "POST" body env o =
        ({ status := 500, error := some "No vector store configured",
           detail := some "Set VECTOR_STORE_IDS (vs_...) in Vercel → Settings → Environment Variables and redeploy." }, 0)) := by
  constructor
  · intro hkey
    refine ⟨?_, ?_, ?_, ?_⟩
    · simp [chatV1Handler, chatV1Go, hq, hkey]
    · simp [part001Handler, part001Go, hq, hkey]
    · simp [chatV2Handler, chatV2Go, hq, hkey]
    · simp [part000Handler, part000Go, hq, hkey]
  · intro hkey hvs
    constructor
    · simp [chatV2Handler, chatV2Go, hq, hkey, hvs]
    · simp [part000Handler, part000Go, hq, hkey, hvs]

/-- Witness for C2: the key-missing half at an unset key, the
vector-store half at a set key with `VECTOR_STORE_IDS` unset. -/
theorem C2_config_errors_witness :
    ((chatV1Handler "POST" (some (some "q")) ⟨none, some "file_1", some "vs1"⟩
        ⟨true, 200, "", {}⟩).1.status = 500)
    ∧ ((chatV2Handler "POST" (some (some "q")) ⟨some "k", none, none⟩ idleOracle).1.status = 500) := by
  constructor
  · have h := C2_config_errors (some (some "q")) ⟨none, some "file_1", some "vs1"⟩
      ⟨true, 200, "", {}⟩ idleOracle (by decide)
    rw [(h.1 (by decide)).1]
  · have h := C2_config_errors (some (some "q")) ⟨some "k", none, none⟩
      ⟨true, 200, "", {}⟩ idleOracle (by decide)
    rw [(h.2 (by decide) (by decide)).1]

/-- C3 counterexample: `part_002` does not relay a non-2xx external
status: a 404 from the completion call is thrown
(`OpenAI error: <text>`) and caught, and the caller receives `500` with
the text embedded in the error message — not the external status code
with the payload as `detail`. -/
theorem C3_part002_counterexample :
    part002Handler "POST" (some (some "q")) ⟨some "k", some "file_1", none⟩
        ⟨false, 404, "upstream detail", {}⟩ =
      ({ status := 500, error := some "OpenAI error: upstream detail" }, 1)
    ∧ (part002Handler "POST" (some (some "q")) ⟨some "k", some "file_1", none⟩
        ⟨false, 404, "upstream detail", {}⟩).1.status ≠ 404 := by
  exact ⟨by decide, by decide⟩

/-- C3 as amended: a non-2xx from the handlers' direct external calls is
relayed with the same status code and the body text verbatim as `detail`
in both `chat.js` handlers, `part_000` and `part_001` (shown for the
synchronous completion call and the assistant-creation call); but
`part_002` maps any non-2xx to a `500` whose error message embeds the
text, and a non-2xx from the run-status poll inside `waitForRun` is
thrown and surfaces as a `500` server error in both Assistants-API
variants rather than being relayed. -/
theorem C3_upstream_error_relay (body : ReqBody) (env : Env)
    (f : FetchResult) (o o2 : AsstOracle) (st : Nat) (tx : String)
    (hq : questionText body ≠ "") (hkey : keyMissing env = false)
    (hf : f.ok = false)
    (hvs : parseIdList env.VECTOR_STORE_IDS ≠ [])
    (hao : o.assistantResp.ok = false)
    (h2a : o2.assistantResp.ok = true) (h2t : o2.threadResp.ok = true)
    (h2r : o2.runResp.ok = true) (h2p : o2.poll 0 = PollResp.httpError st tx) :
    chatV1Handler "POST" body env f =
      ({ status := f.status, error := some "OpenAI error", detail := some f.text }, 1)
    ∧ part001Handler "POST" body env f =
      ({ status := f.status, error := some "OpenAI error", detail := some f.text }, 1)
    ∧ chatV2Handler "POST" body env o =
      ({ status := o.assistantResp.status, error := some "Create assistant error",
         detail := some o.assistantResp.text }, 1)
    ∧ part000Handler "POST" body env o =
      ({ status := o.assistantResp.status, error := some "Create assistant error",
         detail := some o.assistantResp.text }, 1)
    ∧ part002Handler "POST" body env f =
      ({ status := 500, error := some ("OpenAI error: " ++ f.text) }, 1)
    ∧ chatV2Handler "POST" body env o2 =
      ({ status := 500, error := some "Server error",
         detail := some (errToString ("Run status error: " ++ tx)) }, 4)
    ∧ part000Handler "POST" body env o2 =
      ({ status := 500, error := some "Server error",
         detail := some (part000ErrDetail
           ("Run status error " ++ toString st ++ ": " ++ tx)) }, 4) := by
  have hw45 : waitForRun o2.poll 45000 = (WaitOutcome.httpError st tx, 1) := by
    have hgo := waitGo_step_http o2.poll 45000 0 0 (45000 / 1200 + 1) st tx (by norm_num) h2p
    have hsome := waitForRun_some o2.poll 45000
    rw [show 45000 / 1200 + 2 = (45000 / 1200 + 1) + 1 by omega, hgo] at hsome
    exact (Option.some.inj hsome).symm
  have hw60 : waitForRun o2.poll 60000 = (WaitOutcome.httpError st tx, 1) := by
    have hgo := waitGo_step_http o2.poll 60000 0 0 (60000 / 1200 + 1) st tx (by norm_num) h2p
    have hsome := waitForRun_some o2.poll 60000
    rw [show 60000 / 1200 + 2 = (60000 / 1200 + 1) + 1 by omega, hgo] at hsome
    exact (Option.some.inj hsome).symm
  obtain ⟨q, rfl⟩ : ∃ q, body = some q := by
    cases body with
    | none => exact absurd rfl hq
    | some q => exact ⟨q, rfl⟩
  refine ⟨?_, ?_, ?_, ?_, ?_, ?_, ?_⟩
  · simp [chatV1Handler, chatV1Go, hq, hkey, hf]
  · simp [part001Handler, part001Go, hq, hkey, hf]
  · simp [chatV2Handler, chatV2Go, hq, hkey, hvs, hao]
  · simp [part000Handler, part000Go, hq, hkey, hvs, hao]
  · simp [part002Handler, part002Go, hf]
  · simp [chatV2Handler, chatV2Go, chatV2RunOutcome, hq, hkey, hvs, h2a, h2t, h2r, hw45]
  · simp [part000Handler, part000Go, part000RunOutcome, hq, hkey, hvs, h2a, h2t, h2r, hw60]

/-- Witness for C3 at a concrete 503 completion failure, 502 assistant
failure, and 500 run-status-poll failure. -/
theorem C3_upstream_error_relay_witness :
    (chatV1Handler "POST" (some (some "q")) ⟨some "k", some "file_1", some "vs1"⟩
        ⟨false, 503, "boom", {}⟩).1 =
      { status := 503, error := some "OpenAI error", detail := some "boom" } := by
  have h := C3_upstream_error_relay (some (some "q")) ⟨some "k", some "file_1", some "vs1"⟩
    ⟨false, 503, "boom", {}⟩
    { assistantResp := ⟨false, 502, "asst down"⟩, threadResp := ⟨true, 200, ""⟩,
      runResp := ⟨true, 200, ""⟩, poll := fun _ => PollResp.ok ⟨"completed", none⟩,
      msgsResp := ⟨true, 200, ""⟩, msgs := {} }
    { assistantResp := ⟨true, 200, ""⟩, threadResp := ⟨true, 200, ""⟩,
      runResp := ⟨true, 200, ""⟩, poll := fun _ => PollResp.httpError 500 "poll boom",
      msgsResp := ⟨true, 200, ""⟩, msgs := {} }
    500 "poll boom" (by decide) (by decide) (by decide) (by decide) (by decide)
    (by decide) (by decide) (by decide) rfl
  rw [h.1]

/-- C5 counterexample: when extraction yields the empty string, `part_001`
does not return an empty answer with an advisory hint: it substitutes a
fixed apology string as the answer itself (status is still 200). -/
theorem C5_part001_counterexample :
    respAnswer { output := some [] } = ""
    ∧ (part001Handler "POST" (some (some "q")) ⟨some "k", some "file_1", none⟩
        ⟨true, 200, "", { output := some [] }⟩).1.answer ≠ some ""
    ∧ (part001Handler "POST" (some (some "q")) ⟨some "k", some "file_1", none⟩
        ⟨true, 200, "", { output := some [] }⟩).1.status = 200 := by
  exact ⟨by decide, by decide, by decide⟩

/-- C5 as amended: an empty extraction after a successful external
interaction is never treated as an error — every variant answers `200` —
but only both `chat.js` handlers and `part_000` return an empty answer
plus an advisory `error`/`hint` text; `part_001` and `part_002` instead
substitute a fixed apology string as the answer/reply itself. -/
theorem C5_empty_extraction_success (body : ReqBody) (env : Env)
    (f : FetchResult) (o : AsstOracle) (run : RunObj) (p : Nat)
    (hq : questionText body ≠ "") (hkey : keyMissing env = false)
    (hf : f.ok = true) (hemp : respAnswer f.body = "")
    (hvs : parseIdList env.VECTOR_STORE_IDS ≠ [])
    (ho1 : o.assistantResp.ok = true) (ho2 : o.threadResp.ok = true)
    (ho3 : o.runResp.ok = true)
    (hw45 : waitForRun o.poll 45000 = (WaitOutcome.completed run, p))
    (hw60 : waitForRun o.poll 60000 = (WaitOutcome.completed run, p))
    (hmsgs : o.msgsResp.ok = true)
    (hext2 : chatV2ExtractText o.msgs = "")
    (hext0 : getLatestAssistantText o.msgs = "") :
    chatV1Handler "POST" body env f =
      ({ status := 200, answer := some "",
         error := some (jsOr f.body.error "No answer produced. Check FILE_IDS and logs.") }, 1)
    ∧ part001Handler "POST" body env f =
      ({ status := 200,
         answer := some "Sorry—I couldn’t find a clear answer in the uploaded files.",
         sources := some [] }, 1)
    ∧ part002Handler "POST" body env f =
      ({ status := 200, reply := some "Sorry, no answer." }, 1)
    ∧ chatV2Handler "POST" body env o =
      ({ status := 200, answer := some "",
         error := some "No answer produced. Ensure your vector store contains a small, clear test PDF and try again." }, 3 + p + 1)
    ∧ part000Handler "POST" body env o =
      ({ status := 200, answer := some "",
         hint := some "No text returned. Ensure the vector store has a small test PDF, status=completed, and that your question matches the file’s wording." }, 3 + p + 1) := by
  have hot : f.body.output_text.getD "" = "" := by
    by_cases hno : f.body.output_text.getD "" = ""
    · exact hno
    · simp only [respAnswer] at hemp
      rw [if_neg hno] at hemp
      exact absurd hemp hno
  have hjs : jsOr f.body.output_text "Sorry, no answer." = "Sorry, no answer." := by
    cases hcase : f.body.output_text with
    | none => rfl
    | some s =>
      rw [hcase, Option.getD_some] at hot
      simp [jsOr, hot]
  obtain ⟨q, rfl⟩ : ∃ q, body = some q := by
    cases body with
    | none => exact absurd rfl hq
    | some q => exact ⟨q, rfl⟩
  refine ⟨?_, ?_, ?_, ?_, ?_⟩
  · simp [chatV1Handler, chatV1Go, hq, hkey, hf, hemp]
  · simp [part001Handler, part001Go, hq, hkey, hf, hemp]
  · simp [part002Handler, part002Go, hf, hjs]
  · simp [chatV2Handler, chatV2Go, chatV2RunOutcome, hq, hkey, hvs, ho1, ho2, ho3,
      hw45, hmsgs, hext2]
  · simp [part000Handler, part000Go, part000RunOutcome, hq, hkey, hvs, ho1, ho2, ho3,
      hw60, hmsgs, hext0]

/-- Witness for C5 at a run completing on its first status check with an
empty thread. -/
theorem C5_empty_extraction_success_witness :
    (chatV1Handler "POST" (some (some "q")) ⟨some "k", some "file_1", some "vs1"⟩
        ⟨true, 200, "", {}⟩).1.status = 200
    ∧ (part000Handler "POST" (some (some "q")) ⟨some "k", some "file_1", some "vs1"⟩
        idleOracle).1.status = 200 := by
  have h := C5_empty_extraction_success (some (some "q"))
    ⟨some "k", some "file_1", some "vs1"⟩ ⟨true, 200, "", {}⟩ idleOracle
    ⟨"completed", none⟩ 1 (by decide) (by decide) (by decide) (by decide)
    (by decide) (by decide) (by decide) (by decide) (by decide) (by decide)
    (by decide) (by decide) (by decide)
  exact ⟨by rw [h.1], by rw [h.2.2.2.2]⟩

/-- C6 counterexample: the second `chat.js` handler does not select the
first assistant-role message: it takes the newest message regardless of
role.  With the user's own message newest in the descending listing, the
handler returns the user's text "Q", not the assistant's "A". -/
theorem C6_role_blind_counterexample :
    chatV2ExtractText { data := some [⟨"user", some [⟨"text", some "Q"⟩]⟩,
        ⟨"assistant", some [⟨"text", some "A"⟩]⟩] } = "Q"
    ∧ getLatestAssistantText { data := some [⟨"user", some [⟨"text", some "Q"⟩]⟩,
        ⟨"assistant", some [⟨"text", some "A"⟩]⟩] } = "A"
    ∧ (chatV2Handler "POST" (some (some "Q")) ⟨some "k", none, some "vs1"⟩
        { assistantResp := ⟨true, 200, ""⟩, threadResp := ⟨true, 200, ""⟩,
          runResp := ⟨true, 200, ""⟩,
          poll := fun _ => PollResp.ok ⟨"completed", none⟩,
          msgsResp := ⟨true, 200, ""⟩,
          msgs := { data := some [⟨"user", some [⟨"text", some "Q"⟩]⟩,
            ⟨"assistant", some [⟨"text", some "A"⟩]⟩] } }).1.answer = some "Q"
    ∧ ("Q" : String) ≠ "A" := by
  exact ⟨by decide, by decide, by decide, by decide⟩

/-- C6 as amended: `part_000` selects the first assistant-role message of
the descending listing — provably never a message of any other role — and
returns its text segments joined by newlines, trimmed (shown on a
two-segment assistant message listed before the user's); the second
`chat.js` handler instead takes the newest message without checking its
role and concatenates its text segments without separator, trimmed. -/
theorem C6_async_extraction :
    (∀ (msgs : List Msg) (m : Msg), part000SelectedMsg msgs = some m →
      m.role = "assistant")
    ∧ getLatestAssistantText { data := some [⟨"assistant",
        some [⟨"text", some "A"⟩, ⟨"text", some "B"⟩]⟩,
        ⟨"user", some [⟨"text", some "Q"⟩]⟩] } = "A\nB"
    ∧ chatV2ExtractText { data := some [⟨"assistant",
        some [⟨"text", some "A"⟩, ⟨"text", some "B"⟩]⟩,
        ⟨"user", some [⟨"text", some "Q"⟩]⟩] } = "AB" := by
  refine ⟨?_, by decide, by decide⟩
  intro msgs m hm
  have h := List.find?_some hm
  simpa using h

/-- Witness for C6: the selection hypothesis discharged at a concrete
two-message listing. -/
theorem C6_async_extraction_witness :
    part000SelectedMsg [⟨"user", some []⟩, ⟨"assistant", some []⟩] =
      some ⟨"assistant", some []⟩
    ∧ (Msg.mk "assistant" (some [])).role = "assistant" :=
  ⟨by decide, C6_async_extraction.1 [⟨"user", some []⟩, ⟨"assistant", some []⟩]
    ⟨"assistant", some []⟩ (by decide)⟩

/-- Whether an `Except`-valued handler core returned normally (no
JavaScript exception was thrown). -/
def exceptOk {ε α : Type} : Except ε α → Bool
  | .ok _ => true
  | .error _ => false

/-- C10: every handler, on any method, any body (including absent or
non-object, modelled by `ReqBody`), any environment and any external
outcome, terminates with exactly one response: the cores of the first
`chat.js` handler and of `part_001` never throw within the modelled input
space, every exception thrown by the cores of `part_002`, the second
`chat.js` handler and `part_000` is caught and mapped to a `500` JSON
response containing the stringified error, and the polling loop embedded
in the assistant variants always resolves (its fuel is never
exhausted). -/
theorem C10_one_response_no_escape (method : String) (body : ReqBody)
    (env : Env) (f : FetchResult) (o : AsstOracle) :
    exceptOk (chatV1Go method body env f).1 = true
    ∧ exceptOk (part001Go method body env f).1 = true
    ∧ (∀ e n, part002Go method body env f = (.error e, n) →
        part002Handler method body env f = ({ status := 500, error := some e }, n))
    ∧ (∀ e n, chatV2Go method body env o = (.error e, n) →
        chatV2Handler method body env o =
          ({ status := 500, error := some "Server error",
             detail := some (errToString e) }, n))
    ∧ (∀ e n, part000Go method body env o = (.error e, n) →
        part000Handler method body env o =
          ({ status := 500, error := some "Server error",
             detail := some (part000ErrDetail e) }, n))
    ∧ (waitGo o.poll 45000 0 0 (45000 / 1200 + 2)).isSome = true
    ∧ (waitGo o.poll 60000 0 0 (60000 / 1200 + 2)).isSome = true := by
  refine ⟨?_, ?_, ?_, ?_, ?_, ?_, ?_⟩
  · unfold chatV1Go
    dsimp only
    repeat' split <;> try rfl
  · unfold part001Go
    dsimp only
    repeat' split <;> try rfl
  · intro e n h
    simp only [part002Handler, h]
  · intro e n h
    simp only [chatV2Handler, h]
  · intro e n h
    simp only [part000Handler, h]
  · exact waitGo_isSome o.poll 45000 38 0 0 (by norm_num)
  · exact waitGo_isSome o.poll 60000 50 0 0 (by norm_num)

/-- Witness for C10: the catch clauses exercised at a nullish body
(`part_002`'s destructuring `TypeError`) and at a failed run (the
assistant variants' thrown run error). -/
theorem C10_one_response_no_escape_witness :
    part002Handler "POST" none ⟨some "k", some "file_1", none⟩ ⟨true, 200, "", {}⟩ =
      ({ status := 500, error := some destructureErrMsg }, 0)
    ∧ chatV2Handler "POST" (some (some "q")) ⟨some "k", none, some "vs1"⟩
        failedRunOracle =
      ({ status := 500, error := some "Server error",
         detail := some (errToString "Run failed: boom") }, 4)
    ∧ part000Handler "POST" (some (some "q")) ⟨some "k", none, some "vs1"⟩
        failedRunOracle =
      ({ status := 500, error := some "Server error",
         detail := some (part000ErrDetail "boom") }, 4) := by
  have h := C10_one_response_no_escape "POST" none ⟨some "k", some "file_1", none⟩
    ⟨true, 200, "", {}⟩ failedRunOracle
  have h2 := C10_one_response_no_escape "POST" (some (some "q"))
    ⟨some "k", none, some "vs1"⟩ ⟨true, 200, "", {}⟩ failedRunOracle
  exact ⟨h.2.2.1 destructureErrMsg 0 rfl,
    h2.2.2.2.1 "Run failed: boom" 4 rfl,
    h2.2.2.2.2.1 "boom" 4 rfl⟩
